import Mathlib

/-!
Verification of the greeting program (src/src/lib.rs).

The on-wire format of `GreetingInstruction` and `GreetingAccountState` is the
Borsh format produced by the derived `BorshSerialize`/`BorshDeserialize`
implementations: a one-byte variant tag for enums (0-based, declaration
order), strings as a 4-byte little-endian length followed by the raw bytes,
`Pubkey` as its 32 raw bytes, `u32` little-endian.  Text fields are modelled
as raw byte sequences (UTF-8 well-formedness of decoded strings is
abstracted away).  Bytes are modelled as `Nat` values, valid when `< 256`.
-/

namespace Greeting

/-- A byte string (each element is a byte value). -/
abbrev Bytes := List Nat

/-- A Solana public key: 32 raw bytes. -/
abbrev Pubkey := Bytes

/-- The 4-byte little-endian encoding of a `u32` value. -/
def u32le (n : Nat) : Bytes :=
  [n % 256, n / 256 % 256, n / 65536 % 256, n / 16777216 % 256]

/-- Borsh reader for a `u32`: consume 4 bytes, little-endian. -/
def readU32 : Bytes → Option (Nat × Bytes)
  | b0 :: b1 :: b2 :: b3 :: rest =>
      some (b0 + 256 * b1 + 65536 * b2 + 16777216 * b3, rest)
  | _ => none

/-- Borsh reader for `n` raw bytes; fails when the buffer is shorter. -/
def readBytes (n : Nat) (bs : Bytes) : Option (Bytes × Bytes) :=
  if n ≤ bs.length then some (bs.take n, bs.drop n) else none

/-- Borsh serialization of a string: `u32` length followed by the bytes. -/
def serializeString (s : Bytes) : Bytes := u32le s.length ++ s

/-- Borsh reader for a string: length, then that many bytes. -/
def readString (bs : Bytes) : Option (Bytes × Bytes) :=
  match readU32 bs with
  | none => none
  | some (n, rest) => readBytes n rest

/-- The instruction enum (src/src/lib.rs lines 15-39). -/
inductive GreetingInstruction where
  | CreateGreeting (name : Bytes) (message : Bytes)
  | SetGreeting (message : Bytes)
  deriving DecidableEq

/-- Derived `BorshSerialize` for `GreetingInstruction`: one tag byte
(0 = `CreateGreeting`, 1 = `SetGreeting`) followed by the fields. -/
def GreetingInstruction.serialize : GreetingInstruction → Bytes
  | .CreateGreeting name message =>
      0 :: (serializeString name ++ serializeString message)
  | .SetGreeting message => 1 :: serializeString message

/-- Derived `BorshDeserialize` for `GreetingInstruction`: reads one value
from the front of the buffer, returning the unread remainder. -/
def GreetingInstruction.deserializeReader : Bytes → Option (GreetingInstruction × Bytes)
  | [] => none
  | t :: rest =>
      if t = 0 then
        match readString rest with
        | none => none
        | some (name, r1) =>
            match readString r1 with
            | none => none
            | some (message, r2) => some (.CreateGreeting name message, r2)
      else if t = 1 then
        match readString rest with
        | none => none
        | some (message, r1) => some (.SetGreeting message, r1)
      else none

/-- Borsh `try_from_slice` for `GreetingInstruction`: deserialize and require
the whole buffer to be consumed. -/
def GreetingInstruction.try_from_slice (bs : Bytes) : Option GreetingInstruction :=
  match GreetingInstruction.deserializeReader bs with
  | some (i, []) => some i
  | _ => none

/-- The persisted account state (src/src/lib.rs lines 44-56). -/
structure GreetingAccountState where
  authority : Pubkey
  name : Bytes
  message : Bytes
  update_count : Nat
  deriving DecidableEq

/-- Max length for the name field (src/src/lib.rs line 63). -/
def GreetingAccountState.MAX_NAME_LENGTH : Nat := 32

/-- Max length for the message field (src/src/lib.rs line 65). -/
def GreetingAccountState.MAX_MESSAGE_LENGTH : Nat := 128

/-- Maximum space needed for the account (src/src/lib.rs lines 69-79). -/
def GreetingAccountState.get_max_space_needed : Nat :=
  32 +
  (4 + MAX_NAME_LENGTH) +
  (4 + MAX_MESSAGE_LENGTH) +
  4

/-- Derived `BorshSerialize` for `GreetingAccountState`: fields in
declaration order. -/
def GreetingAccountState.serialize (s : GreetingAccountState) : Bytes :=
  s.authority ++ serializeString s.name ++ serializeString s.message ++
    u32le s.update_count

/-- Derived `BorshDeserialize` for `GreetingAccountState`. -/
def GreetingAccountState.deserializeReader (bs : Bytes) :
    Option (GreetingAccountState × Bytes) :=
  match readBytes 32 bs with
  | none => none
  | some (auth, r1) =>
      match readString r1 with
      | none => none
      | some (name, r2) =>
          match readString r2 with
          | none => none
          | some (message, r3) =>
              match readU32 r3 with
              | none => none
              | some (cnt, r4) => some (⟨auth, name, message, cnt⟩, r4)

/-- Borsh `try_from_slice` for `GreetingAccountState`. -/
def GreetingAccountState.try_from_slice (bs : Bytes) : Option GreetingAccountState :=
  match GreetingAccountState.deserializeReader bs with
  | some (s, []) => some s
  | _ => none

/-- A value that can appear as a Rust string on the wire: its byte length
fits in a `u32` and every element is a byte. -/
def ValidBytes (s : Bytes) : Prop := s.length < 2 ^ 32 ∧ ∀ b ∈ s, b < 256

instance (s : Bytes) : Decidable (ValidBytes s) := by
  unfold ValidBytes; infer_instance

/-- A valid instruction value: every text field is a valid string. -/
def ValidInstruction : GreetingInstruction → Prop
  | .CreateGreeting name message => ValidBytes name ∧ ValidBytes message
  | .SetGreeting message => ValidBytes message

instance (i : GreetingInstruction) : Decidable (ValidInstruction i) := by
  cases i <;> (unfold ValidInstruction; infer_instance)

/-- A valid record: 32-byte authority, valid strings, `u32` counter. -/
def ValidState (s : GreetingAccountState) : Prop :=
  s.authority.length = 32 ∧ (∀ b ∈ s.authority, b < 256) ∧
    ValidBytes s.name ∧ ValidBytes s.message ∧ s.update_count < 2 ^ 32

instance (s : GreetingAccountState) : Decidable (ValidState s) := by
  unfold ValidState; infer_instance

theorem readU32_u32le (n : Nat) (rest : Bytes) (h : n < 2 ^ 32) :
    readU32 (u32le n ++ rest) = some (n, rest) := by
  have hval : n % 256 + 256 * (n / 256 % 256) + 65536 * (n / 65536 % 256) +
      16777216 * (n / 16777216 % 256) = n := by omega
  simp [u32le, readU32, hval]

theorem readBytes_append (l rest : Bytes) :
    readBytes l.length (l ++ rest) = some (l, rest) := by
  simp [readBytes, List.take_left, List.drop_left]

theorem readString_append (s rest : Bytes) (h : s.length < 2 ^ 32) :
    readString (serializeString s ++ rest) = some (s, rest) := by
  unfold readString serializeString
  rw [List.append_assoc, readU32_u32le s.length (s ++ rest) h]
  exact readBytes_append s rest

theorem readString_serialize (s : Bytes) (h : s.length < 2 ^ 32) :
    readString (serializeString s) = some (s, []) := by
  have := readString_append s [] h
  rwa [List.append_nil] at this

theorem instruction_roundtrip (i : GreetingInstruction) (h : ValidInstruction i) :
    GreetingInstruction.try_from_slice (GreetingInstruction.serialize i) = some i := by
  cases i with
  | CreateGreeting name message =>
      obtain ⟨⟨hn, _⟩, ⟨hm, _⟩⟩ := h
      have h1 : readString (serializeString name ++ serializeString message) =
          some (name, serializeString message) := readString_append name _ hn
      have h2 : readString (serializeString message) = some (message, []) :=
        readString_serialize message hm
      simp [GreetingInstruction.try_from_slice, GreetingInstruction.serialize,
        GreetingInstruction.deserializeReader, h1, h2]
  | SetGreeting message =>
      obtain ⟨hm, _⟩ := h
      have h2 : readString (serializeString message) = some (message, []) :=
        readString_serialize message hm
      simp [GreetingInstruction.try_from_slice, GreetingInstruction.serialize,
        GreetingInstruction.deserializeReader, h2]

theorem state_roundtrip (s : GreetingAccountState) (h : ValidState s) :
    GreetingAccountState.try_from_slice (GreetingAccountState.serialize s) = some s := by
  obtain ⟨ha, _, ⟨hn, _⟩, ⟨hm, _⟩, hc⟩ := h
  have h0 : ∀ r : Bytes, readBytes 32 (s.authority ++ r) = some (s.authority, r) := by
    intro r; rw [← ha]; exact readBytes_append s.authority r
  have h1 : ∀ r : Bytes, readString (serializeString s.name ++ r) = some (s.name, r) :=
    fun r => readString_append s.name r hn
  have h2 : ∀ r : Bytes, readString (serializeString s.message ++ r) = some (s.message, r) :=
    fun r => readString_append s.message r hm
  have h3 : readU32 (u32le s.update_count) = some (s.update_count, []) := by
    have := readU32_u32le s.update_count [] hc
    rwa [List.append_nil] at this
  simp [GreetingAccountState.try_from_slice, GreetingAccountState.serialize,
    GreetingAccountState.deserializeReader, List.append_assoc, h0, h1, h2, h3]

/-- The account metadata the program receives from the runtime: the parts of
`solana_program::account_info::AccountInfo` the program inspects, with the
mutable data buffer as an explicit field. -/
structure AccountInfo where
  key : Pubkey
  is_signer : Bool
  is_writable : Bool
  lamports : Nat
  data : Bytes
  owner : Pubkey
  executable : Bool
  deriving DecidableEq

/-- The only `solana_program::program_error::ProgramError` value the program
constructs (src/src/lib.rs line 114). -/
inductive ProgramError where
  | InvalidInstructionData
  deriving DecidableEq

/-- The program entrypoint (src/src/lib.rs lines 84-141).  `msg!` logging is
a side effect outside the state we model.  The result pairs the returned
`ProgramResult` with the account list after the call; the function never
writes to an account, so the account list is returned unchanged on every
path. -/
def process_instruction (program_id : Pubkey) (accounts : List AccountInfo)
    (instruction_data : Bytes) : Except ProgramError Unit × List AccountInfo :=
  match GreetingInstruction.try_from_slice instruction_data with
  | none => (Except.error ProgramError.InvalidInstructionData, accounts)
  | some (.CreateGreeting _ _) => (Except.ok (), accounts)
  | some (.SetGreeting _) => (Except.ok (), accounts)

/-- Borsh deserialization of a record from an account buffer, ignoring any
trailing bytes (the buffer is allocated at the fixed maximum size, so the
encoded record may be followed by padding). -/
def GreetingAccountState.deserializeLoose (bs : Bytes) : Option GreetingAccountState :=
  match GreetingAccountState.deserializeReader bs with
  | some (s, _) => some s
  | none => none

/-- Modelled from the spec: the error taxonomy of spec sections 4.4 and 7
for the validation/mutation logic that src/src/lib.rs leaves as an
unimplemented placeholder (lines 123-126 and 131-135). -/
inductive GreetingError where
  | InvalidInstructionData
  | NotEnoughAccounts
  | InvalidAccountFlags
  | InvalidAccountAddress
  | AccountAlreadyInitialized
  | AccountNotInitialized
  | FieldTooLong
  | Unauthorized
  deriving DecidableEq

/-- Modelled from the spec: `derive(namespace_id, seed_principal, label?)`
(spec section 4.2), absent from src/.  A pure, deterministic, collision-free
function of its three inputs (the spec requires a collision-resistant
one-way derivation; the model uses an injective length-prefixed
concatenation, which is collision-free outright). -/
def derive (namespace_id : Pubkey) (seed_principal : Pubkey)
    (label : Option Bytes) : Pubkey :=
  match label with
  | none =>
      0 :: (u32le namespace_id.length ++ namespace_id ++
        u32le seed_principal.length ++ seed_principal)
  | some l =>
      1 :: (u32le namespace_id.length ++ namespace_id ++
        u32le seed_principal.length ++ seed_principal ++ u32le l.length ++ l)

/-- The largest value of the `u32` update counter. -/
def U32_MAX : Nat := 2 ^ 32 - 1

/-- Modelled from the spec: `apply_create(authority, name, message)`
(spec section 4.3), absent from src/.  Fails with `FieldTooLong` when a
field exceeds its maximum; otherwise builds the initial record with the
counter at zero. -/
def apply_create (authority : Pubkey) (name : Bytes) (message : Bytes) :
    Except GreetingError GreetingAccountState :=
  if GreetingAccountState.MAX_NAME_LENGTH < name.length then
    Except.error GreetingError.FieldTooLong
  else if GreetingAccountState.MAX_MESSAGE_LENGTH < message.length then
    Except.error GreetingError.FieldTooLong
  else
    Except.ok ⟨authority, name, message, 0⟩

/-- Modelled from the spec: `apply_set(record, new_message)` (spec
section 4.3), absent from src/.  Fails with `FieldTooLong` when the message
exceeds its maximum; otherwise replaces the message and increments the
update counter, saturating at the counter maximum. -/
def apply_set (record : GreetingAccountState) (new_message : Bytes) :
    Except GreetingError GreetingAccountState :=
  if GreetingAccountState.MAX_MESSAGE_LENGTH < new_message.length then
    Except.error GreetingError.FieldTooLong
  else
    Except.ok { record with
      message := new_message,
      update_count := min (record.update_count + 1) U32_MAX }

/-- The buffer contents after writing a freshly encoded record into a slot
of `slotSize` bytes: the encoding followed by zero padding. -/
def writeRecord (slotSize : Nat) (s : GreetingAccountState) : Bytes :=
  s.serialize ++ List.replicate (slotSize - s.serialize.length) 0

/-- Modelled from the spec: the Dispatcher's per-variant validation and
mutation (the transition table of spec section 4.4), absent from src/
(src/src/lib.rs lines 118-137 only log).  Applied after the Wire Codec has
decoded the instruction.  Checks run in the spec's order: account presence,
account flags, address/identity, slot state, field lengths, then the
mutation.  The result pairs the outcome with the account list after the
call; every failing path leaves the accounts unchanged. -/
def execute_instruction (program_id : Pubkey) (accounts : List AccountInfo)
    (instr : GreetingInstruction) : Except GreetingError Unit × List AccountInfo :=
  match instr with
  | .CreateGreeting name message =>
      match accounts with
      | payer :: target :: sysAcc :: rest =>
          if payer.is_signer && payer.is_writable then
            if target.is_writable then
              if target.key = derive program_id payer.key (some name) then
                if target.data = [] then
                  match apply_create payer.key name message with
                  | Except.error e => (Except.error e, accounts)
                  | Except.ok st =>
                      (Except.ok (),
                        payer ::
                          { target with
                            data := writeRecord
                              GreetingAccountState.get_max_space_needed st } ::
                          sysAcc :: rest)
                else (Except.error GreetingError.AccountAlreadyInitialized, accounts)
              else (Except.error GreetingError.InvalidAccountAddress, accounts)
            else (Except.error GreetingError.InvalidAccountFlags, accounts)
          else (Except.error GreetingError.InvalidAccountFlags, accounts)
      | _ => (Except.error GreetingError.NotEnoughAccounts, accounts)
  | .SetGreeting message =>
      match accounts with
      | auth :: target :: rest =>
          if auth.is_signer then
            if target.is_writable then
              match GreetingAccountState.deserializeLoose target.data with
              | none => (Except.error GreetingError.AccountNotInitialized, accounts)
              | some st =>
                  if auth.key = st.authority then
                    match apply_set st message with
                    | Except.error e => (Except.error e, accounts)
                    | Except.ok st2 =>
                        (Except.ok (),
                          auth ::
                            { target with
                              data := writeRecord target.data.length st2 } ::
                            rest)
                  else (Except.error GreetingError.Unauthorized, accounts)
            else (Except.error GreetingError.InvalidAccountFlags, accounts)
          else (Except.error GreetingError.InvalidAccountFlags, accounts)
      | _ => (Except.error GreetingError.NotEnoughAccounts, accounts)

/-- Claim C1: whenever the instruction bytes do not deserialize to a known
`GreetingInstruction` variant, `process_instruction` returns
`InvalidInstructionData` and leaves every account unchanged; an unknown tag
byte (any tag ≥ 2) fails to deserialize, as does a declared field length
exceeding the remaining buffer (e.g. tag 1 declaring 5 message bytes with
only 1 remaining). -/
theorem claim_C1 :
    (∀ (program_id : Pubkey) (accounts : List AccountInfo) (data : Bytes),
      GreetingInstruction.try_from_slice data = none →
      process_instruction program_id accounts data =
        (Except.error ProgramError.InvalidInstructionData, accounts))
    ∧ (∀ (tag : Nat) (rest : Bytes), 2 ≤ tag →
      GreetingInstruction.try_from_slice (tag :: rest) = none)
    ∧ GreetingInstruction.try_from_slice [1, 5, 0, 0, 0, 65] = none := by
  refine ⟨?_, ?_, by decide⟩
  · intro program_id accounts data h
    simp [process_instruction, h]
  · intro tag rest htag
    have h0 : tag ≠ 0 := by omega
    have h1 : tag ≠ 1 := by omega
    simp [GreetingInstruction.try_from_slice, GreetingInstruction.deserializeReader,
      h0, h1]

theorem claim_C1_witness :
    process_instruction [] [] [2] =
      (Except.error ProgramError.InvalidInstructionData, []) ∧
    GreetingInstruction.try_from_slice [2, 0, 0] = none :=
  ⟨claim_C1.1 [] [] [2] (by decide), claim_C1.2.1 2 [0, 0] (by decide)⟩

/-- Claim C2: Borsh round-trip — for every valid instruction value and every
valid record, deserializing the serialized bytes yields the value back. -/
theorem claim_C2 :
    (∀ i : GreetingInstruction, ValidInstruction i →
      GreetingInstruction.try_from_slice (GreetingInstruction.serialize i) = some i)
    ∧ (∀ s : GreetingAccountState, ValidState s →
      GreetingAccountState.try_from_slice (GreetingAccountState.serialize s) = some s) :=
  ⟨instruction_roundtrip, state_roundtrip⟩

theorem claim_C2_witness :
    GreetingInstruction.try_from_slice
        (GreetingInstruction.serialize (GreetingInstruction.CreateGreeting [72] [105, 33])) =
      some (GreetingInstruction.CreateGreeting [72] [105, 33]) ∧
    GreetingAccountState.try_from_slice
        (GreetingAccountState.serialize ⟨List.replicate 32 7, [66], [67, 68], 5⟩) =
      some ⟨List.replicate 32 7, [66], [67, 68], 5⟩ :=
  ⟨claim_C2.1 (GreetingInstruction.CreateGreeting [72] [105, 33]) (by decide),
   claim_C2.2 ⟨List.replicate 32 7, [66], [67, 68], 5⟩ (by decide)⟩

/-- Claim C3: the maximum-space function returns the constant
32 + (4 + 32) + (4 + 128) + 4 = 204 bytes; it takes no record argument, so
it is independent of any record instance. -/
theorem claim_C3 :
    GreetingAccountState.get_max_space_needed = 204 ∧
    GreetingAccountState.get_max_space_needed = 32 + (4 + 32) + (4 + 128) + 4 :=
  ⟨rfl, rfl⟩

/-- Claim C8: the exact wire layout — instruction byte 0 is the tag
(0 = CreateGreeting, 1 = SetGreeting), each text field is a 4-byte
little-endian length followed by the raw bytes, and the persisted record is
the authority bytes, the length-prefixed name, the length-prefixed message,
then the 4-byte little-endian counter. -/
theorem claim_C8 :
    (∀ name message : Bytes,
      GreetingInstruction.serialize (GreetingInstruction.CreateGreeting name message) =
        [0] ++ (u32le name.length ++ name) ++ (u32le message.length ++ message))
    ∧ (∀ message : Bytes,
      GreetingInstruction.serialize (GreetingInstruction.SetGreeting message) =
        [1] ++ (u32le message.length ++ message))
    ∧ (∀ s : GreetingAccountState,
      GreetingAccountState.serialize s =
        s.authority ++ (u32le s.name.length ++ s.name) ++
          (u32le s.message.length ++ s.message) ++ u32le s.update_count)
    ∧ (∀ n : Nat, (u32le n).length = 4 ∧
        u32le n = [n % 256, n / 256 % 256, n / 65536 % 256, n / 16777216 % 256]) := by
  refine ⟨?_, ?_, ?_, ?_⟩
  · intro name message
    simp [GreetingInstruction.serialize, serializeString]
  · intro message
    simp [GreetingInstruction.serialize, serializeString]
  · intro s
    simp [GreetingAccountState.serialize, serializeString, List.append_assoc]
  · intro n
    exact ⟨rfl, rfl⟩

/-- Claim C10: for every program id, account list and instruction byte
sequence that deserializes to a valid `GreetingInstruction`,
`process_instruction` returns `Ok(())` and leaves every account unchanged —
neither variant performs any validation, allocation or write. -/
theorem claim_C10 :
    ∀ (program_id : Pubkey) (accounts : List AccountInfo) (data : Bytes)
      (i : GreetingInstruction),
      GreetingInstruction.try_from_slice data = some i →
      process_instruction program_id accounts data = (Except.ok (), accounts) := by
  intro program_id accounts data i h
  cases i <;> simp [process_instruction, h]

theorem claim_C10_witness :
    process_instruction [] [] [1, 0, 0, 0, 0] = (Except.ok (), []) :=
  claim_C10 [] [] [1, 0, 0, 0, 0] (GreetingInstruction.SetGreeting []) (by decide)

/-- Claim C4: with the other preconditions satisfied (payer signs and is
writable, target writable, target address equals the derived address, slot
empty), a `CreateGreeting` fails with `FieldTooLong` whenever the name
exceeds 32 bytes or the message exceeds 128 bytes, with the accounts
unchanged, and succeeds whenever both fields are within (and at) the
boundary values 32 and 128. -/
theorem claim_C4 :
    ∀ (pid : Pubkey) (payer target sysAcc : AccountInfo) (name message : Bytes),
      payer.is_signer = true → payer.is_writable = true → target.is_writable = true →
      target.key = derive pid payer.key (some name) → target.data = [] →
      ((32 < name.length ∨ 128 < message.length →
          execute_instruction pid [payer, target, sysAcc]
              (GreetingInstruction.CreateGreeting name message) =
            (Except.error GreetingError.FieldTooLong, [payer, target, sysAcc]))
        ∧ (name.length ≤ 32 → message.length ≤ 128 →
          (execute_instruction pid [payer, target, sysAcc]
              (GreetingInstruction.CreateGreeting name message)).1 =
            Except.ok ())) := by
  intro pid payer target sysAcc name message h1 h2 h3 h4 h5
  constructor
  · intro hlen
    by_cases hn : 32 < name.length
    · simp [execute_instruction, h1, h2, h3, h4, h5, apply_create,
        GreetingAccountState.MAX_NAME_LENGTH, hn]
    · have hm : 128 < message.length := by omega
      simp [execute_instruction, h1, h2, h3, h4, h5, apply_create,
        GreetingAccountState.MAX_NAME_LENGTH, GreetingAccountState.MAX_MESSAGE_LENGTH,
        hn, hm]
  · intro hn hm
    simp [execute_instruction, h1, h2, h3, h4, h5, apply_create,
      GreetingAccountState.MAX_NAME_LENGTH, GreetingAccountState.MAX_MESSAGE_LENGTH,
      Nat.not_lt.mpr hn, Nat.not_lt.mpr hm]

theorem claim_C4_witness :
    (execute_instruction [9]
        [⟨[1], true, true, 0, [], [0], false⟩,
         ⟨derive [9] [1] (some (List.replicate 32 65)), false, true, 0, [], [0], false⟩,
         ⟨[3], false, false, 0, [], [0], false⟩]
        (GreetingInstruction.CreateGreeting (List.replicate 32 65)
          (List.replicate 128 66))).1 =
      Except.ok () :=
  (claim_C4 [9] ⟨[1], true, true, 0, [], [0], false⟩
      ⟨derive [9] [1] (some (List.replicate 32 65)), false, true, 0, [], [0], false⟩
      ⟨[3], false, false, 0, [], [0], false⟩ (List.replicate 32 65)
      (List.replicate 128 66) rfl rfl rfl rfl rfl).2 (by simp) (by simp)

/-- Claim C5: a `CreateGreeting` whose target account address differs from
the derived address `derive(program, payer, name)` fails with
`InvalidAccountAddress`, with every account — in particular the target's
data buffer — unchanged, so no allocation is performed. -/
theorem claim_C5 :
    ∀ (pid : Pubkey) (payer target sysAcc : AccountInfo) (rest : List AccountInfo)
      (name message : Bytes),
      payer.is_signer = true → payer.is_writable = true → target.is_writable = true →
      target.key ≠ derive pid payer.key (some name) →
      execute_instruction pid (payer :: target :: sysAcc :: rest)
          (GreetingInstruction.CreateGreeting name message) =
        (Except.error GreetingError.InvalidAccountAddress,
          payer :: target :: sysAcc :: rest) := by
  intro pid payer target sysAcc rest name message h1 h2 h3 h4
  simp [execute_instruction, h1, h2, h3, h4]

theorem claim_C5_witness :
    execute_instruction [9]
        [⟨[1], true, true, 0, [], [0], false⟩, ⟨[2], false, true, 0, [], [0], false⟩,
         ⟨[3], false, false, 0, [], [0], false⟩]
        (GreetingInstruction.CreateGreeting [65] [66]) =
      (Except.error GreetingError.InvalidAccountAddress,
        [⟨[1], true, true, 0, [], [0], false⟩, ⟨[2], false, true, 0, [], [0], false⟩,
         ⟨[3], false, false, 0, [], [0], false⟩]) :=
  claim_C5 [9] ⟨[1], true, true, 0, [], [0], false⟩ ⟨[2], false, true, 0, [], [0], false⟩
    ⟨[3], false, false, 0, [], [0], false⟩ [] [65] [66] rfl rfl rfl (by decide)

/-- Claim C6: a `SetGreeting` whose signing account's key differs from the
authority stored in the target record fails with `Unauthorized`, with every
account — in particular the target's stored record bytes — bit-for-bit
unchanged. -/
theorem claim_C6 :
    ∀ (pid : Pubkey) (auth target : AccountInfo) (rest : List AccountInfo)
      (message : Bytes) (st : GreetingAccountState),
      auth.is_signer = true → target.is_writable = true →
      GreetingAccountState.deserializeLoose target.data = some st →
      auth.key ≠ st.authority →
      execute_instruction pid (auth :: target :: rest)
          (GreetingInstruction.SetGreeting message) =
        (Except.error GreetingError.Unauthorized, auth :: target :: rest) := by
  intro pid auth target rest message st h1 h2 h3 h4
  simp [execute_instruction, h1, h2, h3, h4]

set_option maxRecDepth 4000 in
theorem claim_C6_witness :
    execute_instruction [9]
        [⟨[1], true, false, 0, [], [0], false⟩,
         ⟨[2], false, true, 0,
           GreetingAccountState.serialize ⟨List.replicate 32 7, [65], [66], 0⟩,
           [0], false⟩]
        (GreetingInstruction.SetGreeting [70]) =
      (Except.error GreetingError.Unauthorized,
        [⟨[1], true, false, 0, [], [0], false⟩,
         ⟨[2], false, true, 0,
           GreetingAccountState.serialize ⟨List.replicate 32 7, [65], [66], 0⟩,
           [0], false⟩]) :=
  claim_C6 [9] ⟨[1], true, false, 0, [], [0], false⟩
    ⟨[2], false, true, 0,
      GreetingAccountState.serialize ⟨List.replicate 32 7, [65], [66], 0⟩, [0], false⟩
    [] [70] ⟨List.replicate 32 7, [65], [66], 0⟩ rfl rfl (by decide) (by decide)

/-- Claim C7: every successful `apply_set` replaces the record's message
with the argument and increments `update_count` by 1 saturating at the
`u32` maximum (leaving authority and name untouched); three successive
successful calls starting from `update_count = 0` take the counter through
1, 2, 3 and leave the message equal to the third call's argument. -/
theorem claim_C7 :
    (∀ (r : GreetingAccountState) (m : Bytes) (s : GreetingAccountState),
      apply_set r m = Except.ok s →
      s.message = m ∧ s.authority = r.authority ∧ s.name = r.name ∧
        s.update_count = min (r.update_count + 1) U32_MAX)
    ∧ (∀ (r : GreetingAccountState) (m1 m2 m3 : Bytes)
        (s1 s2 s3 : GreetingAccountState),
      r.update_count = 0 →
      apply_set r m1 = Except.ok s1 → apply_set s1 m2 = Except.ok s2 →
      apply_set s2 m3 = Except.ok s3 →
      s1.update_count = 1 ∧ s2.update_count = 2 ∧ s3.update_count = 3 ∧
        s3.message = m3) := by
  have hok : ∀ (r : GreetingAccountState) (m : Bytes) (s : GreetingAccountState),
      apply_set r m = Except.ok s →
      s.message = m ∧ s.authority = r.authority ∧ s.name = r.name ∧
        s.update_count = min (r.update_count + 1) U32_MAX := by
    intro r m s h
    unfold apply_set at h
    split at h
    · exact absurd h (by simp)
    · cases h
      exact ⟨rfl, rfl, rfl, rfl⟩
  refine ⟨hok, ?_⟩
  intro r m1 m2 m3 s1 s2 s3 h0 h1 h2 h3
  obtain ⟨hm1, -, -, hc1⟩ := hok r m1 s1 h1
  obtain ⟨hm2, -, -, hc2⟩ := hok s1 m2 s2 h2
  obtain ⟨hm3, -, -, hc3⟩ := hok s2 m3 s3 h3
  have hmax : U32_MAX = 2 ^ 32 - 1 := rfl
  refine ⟨?_, ?_, ?_, hm3⟩ <;> omega

theorem claim_C7_witness :
    (⟨[7], [65], [1], 1⟩ : GreetingAccountState).update_count = 1 ∧
    (⟨[7], [65], [2], 2⟩ : GreetingAccountState).update_count = 2 ∧
    (⟨[7], [65], [3], 3⟩ : GreetingAccountState).update_count = 3 ∧
    (⟨[7], [65], [3], 3⟩ : GreetingAccountState).message = [3] :=
  claim_C7.2 ⟨[7], [65], [66], 0⟩ [1] [2] [3] ⟨[7], [65], [1], 1⟩
    ⟨[7], [65], [2], 2⟩ ⟨[7], [65], [3], 3⟩ rfl rfl rfl rfl

/-- Claim C9: address derivation is a pure function of the program
namespace, the seed principal and the optional label — any two evaluations
on equal inputs yield equal addresses; the model takes no other state. -/
theorem claim_C9 :
    ∀ (ns ns' p p' : Pubkey) (l l' : Option Bytes),
      ns = ns' → p = p' → l = l' → derive ns p l = derive ns' p' l' := by
  intro ns ns' p p' l l' h1 h2 h3
  rw [h1, h2, h3]

theorem claim_C9_witness :
    derive [1] [2] (some [3]) = derive [1] [2] (some [3]) :=
  claim_C9 [1] [1] [2] [2] (some [3]) (some [3]) rfl rfl rfl

end Greeting
